import Mathlib

/-!
Verification of the rust-cbor serde codec (src/serializer.rs, src/deserializer.rs).

Bytes are modelled as natural numbers below 256, byte buffers as `List Nat`.
Rust strings are modelled by their UTF-8 byte lists.  Machine integers are
modelled as `Nat` / `Int`; the `u64` truncation performed by `as u64` casts is
made explicit where it matters.  Floats never need numeric semantics here: the
serializer only copies their big-endian bit patterns, which we keep as raw
natural numbers.

The serializer (`Serializer<W>`) is modelled as a state machine over `SState`
(the output buffer plus the four ephemeral flags); each `visit_*` method of the
`impl serde::Serializer` block becomes a function in the `EncM` monad below.
The deserializer (`Deserializer<R>` over an in-memory cursor, as built by
`Deserializer::from_bytes`) is modelled as a state machine over `DState`;
`CborReader`'s offset bookkeeping (`bytes_read`, `last_offset`) is carried in
the state.  `CborReader`'s pushback buffer `buf` is omitted from the state:
no code path in the repository ever appends to it, so it is always empty.
-/

namespace RustCbor

/-! ## Big-endian byte strings -/

/-- Big-endian byte list of width `k` for the value `n` (the low `8*k` bits of
`n`, most significant byte first).  This is what `byteorder`'s
`BigEndian::write_uK` stores. -/
def beBytes : Nat → Nat → List Nat
  | 0, _ => []
  | k + 1, n => (n / 256 ^ k % 256) :: beBytes k n

/-- Value of a big-endian byte list, as read by `byteorder`'s
`BigEndian::read_uK`. -/
def beVal (bs : List Nat) : Nat :=
  bs.foldl (fun acc b => acc * 256 + b) 0

/-! ## Error taxonomy

`Type`, `ReadError`, `WriteError` and `CborError` live in the crate's `lib.rs`,
which is not part of the given sources; their constructors are modelled from
the spec's error taxonomy (§7) and from how the two given source files build
them.  `CborError::IO` is modelled as `ioError` carrying a message. -/

/-- Modelled from the spec: the `Type` enum of `lib.rs`, as used by the two
given source files (`Type::UInt64`, `Type::Unicode`, ...). -/
inductive CborType where
  | UInt | UInt64 | UInt32 | UInt16 | UInt8
  | Int | Int64 | Int32 | Int16 | Int8
  | Float | Float64 | Float32
  | Bool | Null | Unicode | Array | Map
  deriving DecidableEq, Repr

/-- Modelled from the spec: `Type::major`, the wire major type a `Type`
expects (§3 wire table).  Only `Unicode ↦ 3` is exercised by the sources
(`Deserializer::read_type` called from `read_string`). -/
def CborType.major : CborType → Nat
  | .UInt | .UInt64 | .UInt32 | .UInt16 | .UInt8 => 0
  | .Int | .Int64 | .Int32 | .Int16 | .Int8 => 1
  | .Unicode => 3
  | .Array => 4
  | .Map => 5
  | .Float | .Float64 | .Float32 | .Bool | .Null => 7

/-- Modelled from the spec: decode-side error kinds (`ReadError` in `lib.rs`).
`TypeMismatch` is what `ReadError::miss(expected, got)` builds; `Other` holds
the formatted strings produced through `Deserializer::errstr`. -/
inductive ReadError where
  | TypeMismatch (expected : CborType) (got : Nat)
  | Unassigned (major : Nat) (add : Nat)
  | Reserved (major : Nat) (add : Nat)
  | InvalidAddValue (ty : CborType) (val : Nat)
  | Other (msg : String)
  deriving DecidableEq, Repr

/-- Encode-side error kind (`WriteError` in `lib.rs`), as constructed by the
`no_string_key!` macro: `InvalidMapKey { got: Option<Type> }`. -/
inductive WriteError where
  | InvalidMapKey (got : Option CborType)
  deriving DecidableEq, Repr

/-- Modelled from the spec: the crate-level error (`CborError` in `lib.rs`).
`Decode` carries no offset (built by `Deserializer::err` / `miss`);
`AtOffset` carries the stream offset (built by `Deserializer::errat` /
`errstr`); `Encode` wraps a `WriteError`; `ioError` stands for
`CborError::IO`. -/
inductive CborError where
  | Decode (kind : ReadError)
  | AtOffset (kind : ReadError) (offset : Nat)
  | Encode (kind : WriteError)
  | ioError (msg : String)
  deriving DecidableEq, Repr

/-! ## Serializer -/

/-- State of `Serializer<W>` with an in-memory sink: the bytes written so far
plus the four ephemeral flags (serializer.rs lines 16-22). -/
structure SState where
  out : List Nat
  emitting_key : Bool
  byte_string : Bool
  tag : Bool
  skip_key : Bool
  deriving DecidableEq, Repr

/-- The fresh serializer state produced by `Serializer::from_writer_raw`:
empty sink, all four flags false. -/
def initS : SState := ⟨[], false, false, false, false⟩

/-- Result of one encode call. -/
inductive EResult (α : Type) where
  | ok (a : α)
  | err (e : CborError)
  deriving DecidableEq, Repr

/-- Encoder monad: a `visit_*` call transforms the serializer state and either
succeeds or fails.  On failure the state is the state at the moment of the
early `return Err(..)`, mirroring that the Rust serializer keeps whatever was
already written to the sink. -/
def EncM (α : Type) : Type := SState → EResult α × SState

instance : Monad EncM where
  pure a := fun s => (.ok a, s)
  bind x f := fun s =>
    match x s with
    | (.ok a, s') => f a s'
    | (.err e, s') => (.err e, s')

/-- Append raw bytes to the sink (`self.buf.write_all(..)`, which never fails
for an in-memory sink). -/
def emit (bs : List Nat) : EncM Unit :=
  fun s => (.ok (), ⟨s.out ++ bs, s.emitting_key, s.byte_string, s.tag, s.skip_key⟩)

/-- The `no_string_key!` macro (serializer.rs lines 139-154): if
`emitting_key` is set, fail immediately with `InvalidMapKey { got }` before any
byte is written. -/
def no_string_key (got : Option CborType) : EncM Unit :=
  fun s =>
    if s.emitting_key then (.err (.Encode (.InvalidMapKey got)), s)
    else (.ok (), s)

/-- `Serializer::write_num` (serializer.rs lines 25-44): canonical
minimal-width head for major type `major` and magnitude `n` (`n` is a `u64` in
the source; for `n < 2^64` the byte extraction below is exact). -/
def write_num (major n : Nat) : List Nat :=
  if n ≤ 23 then [(major <<< 5) ||| n]
  else if n ≤ 255 then [(major <<< 5) ||| 24, n]
  else if n ≤ 65535 then ((major <<< 5) ||| 25) :: beBytes 2 n
  else if n ≤ 4294967295 then ((major <<< 5) ||| 26) :: beBytes 4 n
  else ((major <<< 5) ||| 27) :: beBytes 8 n

/-- `Serializer::write_uint`. -/
def write_uint (n : Nat) : List Nat := write_num 0 n

/-- `Serializer::write_int` for an `i64` value: nonnegative values go through
`write_uint`, negative ones through major type 1 with magnitude `-1 - n`. -/
def write_int (n : Int) : List Nat :=
  if 0 ≤ n then write_uint n.toNat else write_num 1 (-1 - n).toNat

/-- `visit_unit` (serializer.rs lines 159-162). -/
def visit_unit : EncM Unit := fun s =>
  if s.emitting_key then (.err (.Encode (.InvalidMapKey (some .Null))), s)
  else (.ok (), ⟨s.out ++ [(7 <<< 5) ||| 22], s.emitting_key, s.byte_string, s.tag, s.skip_key⟩)

/-- `visit_usize` (lines 164-167). -/
def visit_usize (v : Nat) : EncM Unit := fun s =>
  if s.emitting_key then (.err (.Encode (.InvalidMapKey (some .UInt))), s)
  else (.ok (), ⟨s.out ++ write_uint v, s.emitting_key, s.byte_string, s.tag, s.skip_key⟩)

/-- `visit_u64` (lines 169-176): while the `tag` flag is set the value is
written with major type 6 instead of 0.  Note the flag is not cleared. -/
def visit_u64 (v : Nat) : EncM Unit := fun s =>
  if s.emitting_key then (.err (.Encode (.InvalidMapKey (some .UInt64))), s)
  else if s.tag then
    (.ok (), ⟨s.out ++ write_num 6 v, s.emitting_key, s.byte_string, s.tag, s.skip_key⟩)
  else
    (.ok (), ⟨s.out ++ write_uint v, s.emitting_key, s.byte_string, s.tag, s.skip_key⟩)

/-- `visit_u32` (lines 178-181). -/
def visit_u32 (v : Nat) : EncM Unit := fun s =>
  if s.emitting_key then (.err (.Encode (.InvalidMapKey (some .UInt32))), s)
  else (.ok (), ⟨s.out ++ write_uint v, s.emitting_key, s.byte_string, s.tag, s.skip_key⟩)

/-- `visit_u16` (lines 183-186). -/
def visit_u16 (v : Nat) : EncM Unit := fun s =>
  if s.emitting_key then (.err (.Encode (.InvalidMapKey (some .UInt16))), s)
  else (.ok (), ⟨s.out ++ write_uint v, s.emitting_key, s.byte_string, s.tag, s.skip_key⟩)

/-- `visit_u8` (lines 188-195): while the `byte_string` flag is set the byte is
written raw (payload of a byte string). -/
def visit_u8 (v : Nat) : EncM Unit := fun s =>
  if s.emitting_key then (.err (.Encode (.InvalidMapKey (some .UInt8))), s)
  else if s.byte_string then
    (.ok (), ⟨s.out ++ [v], s.emitting_key, s.byte_string, s.tag, s.skip_key⟩)
  else
    (.ok (), ⟨s.out ++ write_uint v, s.emitting_key, s.byte_string, s.tag, s.skip_key⟩)

/-- `visit_isize` (lines 197-200). -/
def visit_isize (v : Int) : EncM Unit := fun s =>
  if s.emitting_key then (.err (.Encode (.InvalidMapKey (some .Int))), s)
  else (.ok (), ⟨s.out ++ write_int v, s.emitting_key, s.byte_string, s.tag, s.skip_key⟩)

/-- `visit_i64` (lines 202-205). -/
def visit_i64 (v : Int) : EncM Unit := fun s =>
  if s.emitting_key then (.err (.Encode (.InvalidMapKey (some .Int64))), s)
  else (.ok (), ⟨s.out ++ write_int v, s.emitting_key, s.byte_string, s.tag, s.skip_key⟩)

/-- `visit_i32` (lines 207-210). -/
def visit_i32 (v : Int) : EncM Unit := fun s =>
  if s.emitting_key then (.err (.Encode (.InvalidMapKey (some .Int32))), s)
  else (.ok (), ⟨s.out ++ write_int v, s.emitting_key, s.byte_string, s.tag, s.skip_key⟩)

/-- `visit_i16` (lines 212-215). -/
def visit_i16 (v : Int) : EncM Unit := fun s =>
  if s.emitting_key then (.err (.Encode (.InvalidMapKey (some .Int16))), s)
  else (.ok (), ⟨s.out ++ write_int v, s.emitting_key, s.byte_string, s.tag, s.skip_key⟩)

/-- `visit_i8` (lines 217-220). -/
def visit_i8 (v : Int) : EncM Unit := fun s =>
  if s.emitting_key then (.err (.Encode (.InvalidMapKey (some .Int8))), s)
  else (.ok (), ⟨s.out ++ write_int v, s.emitting_key, s.byte_string, s.tag, s.skip_key⟩)

/-- `visit_f64` (lines 222-227): marker `0xFB` followed by the 8 big-endian
bytes of the value's IEEE-754 bit pattern (`bits`). -/
def visit_f64 (bits : Nat) : EncM Unit := fun s =>
  if s.emitting_key then (.err (.Encode (.InvalidMapKey (some .Float64))), s)
  else
    (.ok (), ⟨s.out ++ ((7 <<< 5) ||| 27) :: beBytes 8 bits,
      s.emitting_key, s.byte_string, s.tag, s.skip_key⟩)

/-- `visit_f32` (lines 229-234): marker `0xFA` followed by the 4 big-endian
bytes of the bit pattern. -/
def visit_f32 (bits : Nat) : EncM Unit := fun s =>
  if s.emitting_key then (.err (.Encode (.InvalidMapKey (some .Float32))), s)
  else
    (.ok (), ⟨s.out ++ ((7 <<< 5) ||| 26) :: beBytes 4 bits,
      s.emitting_key, s.byte_string, s.tag, s.skip_key⟩)

/-- `visit_bool` (lines 236-240). -/
def visit_bool (v : Bool) : EncM Unit := fun s =>
  if s.emitting_key then (.err (.Encode (.InvalidMapKey (some .Bool))), s)
  else
    (.ok (), ⟨s.out ++ [(7 <<< 5) ||| (if v then 21 else 20)],
      s.emitting_key, s.byte_string, s.tag, s.skip_key⟩)

/-- `visit_char` (lines 242-245): checked with `Type::UInt32`, then encoded as
its code point via `visit_u32`. -/
def visit_char (v : Nat) : EncM Unit := fun s =>
  if s.emitting_key then (.err (.Encode (.InvalidMapKey (some .UInt32))), s)
  else visit_u32 v s

/-- `visit_str` (lines 247-250): no `no_string_key!` check; the length head
with major type 3 followed by the raw UTF-8 bytes. -/
def visit_str (v : List Nat) : EncM Unit := fun s =>
  (.ok (), ⟨s.out ++ write_num 3 v.length ++ v,
    s.emitting_key, s.byte_string, s.tag, s.skip_key⟩)

/-- `visit_none` (lines 252-255): keyless `no_string_key!`, then `visit_unit`. -/
def visit_none : EncM Unit := fun s =>
  if s.emitting_key then (.err (.Encode (.InvalidMapKey none)), s)
  else visit_unit s

/-- `visit_some` (lines 257-262): keyless `no_string_key!`, then the inner
value's own serialization. -/
def visit_some (inner : EncM Unit) : EncM Unit := fun s =>
  if s.emitting_key then (.err (.Encode (.InvalidMapKey none)), s)
  else inner s

/-- `visit_unit_variant` (lines 264-269): the case name as a plain string, with
no `no_string_key!` check. -/
def visit_unit_variant (variant : List Nat) : EncM Unit :=
  visit_str variant

/-- Run a list of already-built encode actions in order (the serde visitor's
`while let Some(()) = try!(visitor.visit(self)) {}` loop). -/
def seqE : List (EncM Unit) → EncM Unit
  | [] => pure ()
  | m :: ms => bind m fun _ => seqE ms

/-- `visit_seq` (lines 271-289): the element count head uses major type 2 when
the `byte_string` flag is set and 4 otherwise; after the elements the flag is
cleared (only on success — an element error propagates before the reset). -/
def visit_seq (elems : List (EncM Unit)) : EncM Unit := fun s =>
  if s.emitting_key then (.err (.Encode (.InvalidMapKey (some .Array))), s)
  else
    let header := if s.byte_string then write_num 2 elems.length else write_num 4 elems.length
    match seqE elems ⟨s.out ++ header, s.emitting_key, s.byte_string, s.tag, s.skip_key⟩ with
    | (.ok _, s') => (.ok (), ⟨s'.out, s'.emitting_key, false, s'.tag, s'.skip_key⟩)
    | (.err e, s') => (.err e, s')

/-- `visit_tuple_struct` (lines 291-311): the `"CborBytes"` marker name sets
the `byte_string` flag instead of writing an array head. -/
def visit_tuple_struct (name : String) (elems : List (EncM Unit)) : EncM Unit := fun s =>
  if s.emitting_key then (.err (.Encode (.InvalidMapKey (some .Map))), s)
  else if name = "CborBytes" then
    seqE elems ⟨s.out, s.emitting_key, true, s.tag, s.skip_key⟩
  else
    seqE elems ⟨s.out ++ write_num 4 elems.length, s.emitting_key, s.byte_string, s.tag, s.skip_key⟩

/-- `visit_tuple_variant` (lines 313-331): a one-pair map head, the case name,
then an array of the fields. -/
def visit_tuple_variant (variant : List Nat) (elems : List (EncM Unit)) : EncM Unit := fun s =>
  if s.emitting_key then (.err (.Encode (.InvalidMapKey none)), s)
  else
    seqE elems
      ⟨s.out ++ write_num 5 1 ++ (write_num 3 variant.length ++ variant) ++ write_num 4 elems.length,
        s.emitting_key, s.byte_string, s.tag, s.skip_key⟩

/-- `visit_seq_elt` (lines 333-338). -/
def visit_seq_elt (value : EncM Unit) : EncM Unit := fun s =>
  if s.emitting_key then (.err (.Encode (.InvalidMapKey none)), s)
  else value s

/-- `visit_map` (lines 340-350): pair-count head with major type 5, then the
pair actions (each pair action is a `visit_map_elt` call). -/
def visit_map (elts : List (EncM Unit)) : EncM Unit := fun s =>
  if s.emitting_key then (.err (.Encode (.InvalidMapKey (some .Map))), s)
  else
    seqE elts ⟨s.out ++ write_num 5 elts.length, s.emitting_key, s.byte_string, s.tag, s.skip_key⟩

/-- `visit_struct` (lines 352-370): the `"CborTag"` / `"CborTagEncode"` marker
names set the `tag` flag instead of writing a map head; the flag is never
cleared afterwards. -/
def visit_struct (name : String) (elts : List (EncM Unit)) : EncM Unit := fun s =>
  if s.emitting_key then (.err (.Encode (.InvalidMapKey (some .Map))), s)
  else if name = "CborTag" ∨ name = "CborTagEncode" then
    seqE elts ⟨s.out, s.emitting_key, s.byte_string, true, s.skip_key⟩
  else
    seqE elts ⟨s.out ++ write_num 5 elts.length, s.emitting_key, s.byte_string, s.tag, s.skip_key⟩

/-- `visit_struct_variant` (lines 372-394): one-pair map head, case name, array
head for the fields; `skip_key` is set during the fields and cleared after
them (on success). -/
def visit_struct_variant (variant : List Nat) (elts : List (EncM Unit)) : EncM Unit := fun s =>
  if s.emitting_key then (.err (.Encode (.InvalidMapKey none)), s)
  else
    match seqE elts
      ⟨s.out ++ write_num 5 1 ++ (write_num 3 variant.length ++ variant) ++ write_num 4 elts.length,
        s.emitting_key, s.byte_string, s.tag, true⟩ with
    | (.ok _, s') => (.ok (), ⟨s'.out, s'.emitting_key, s'.byte_string, s'.tag, false⟩)
    | (.err e, s') => (.err e, s')

/-- `visit_map_elt` (lines 396-410): the key is serialized with `emitting_key`
set — but only when neither `tag` nor `skip_key` is active; otherwise the key
is silently skipped.  Then the value is serialized normally. -/
def visit_map_elt (key value : EncM Unit) : EncM Unit := fun s =>
  if s.emitting_key then (.err (.Encode (.InvalidMapKey none)), s)
  else if !s.tag && !s.skip_key then
    match key ⟨s.out, true, s.byte_string, s.tag, s.skip_key⟩ with
    | (.ok _, s') =>
      let s'' : SState := ⟨s'.out, false, s'.byte_string, s'.tag, s'.skip_key⟩
      if s''.emitting_key then (.err (.Encode (.InvalidMapKey none)), s'')
      else value s''
    | (.err e, s') => (.err e, s')
  else
    if s.emitting_key then (.err (.Encode (.InvalidMapKey none)), s)
    else value s

/-! ## A fragment of the serde value universe

The counterexamples for the round-trip and flag-reset claims only need tag
wrappers, string-keyed maps and small integers, so the value fragment below
covers exactly those.  `serVal` drives the serializer the way serde's derived
`Serialize` implementations do (field names of `CborTagEncode` are `"tag"` and
`"data"`, serialized as map keys when keys are emitted at all). -/

/-- Scalar payloads of the value fragment. -/
inductive Leaf where
  | lU8 (n : Nat)
  | lU64 (n : Nat)
  | lText (s : List Nat)
  deriving DecidableEq, Repr

/-- Values of the fragment: scalars, string-keyed maps of scalars, and
`CborTagEncode`-style tag wrappers around an arbitrary fragment value. -/
inductive Val where
  | leaf (l : Leaf)
  | vMap (kvs : List (List Nat × Leaf))
  | vTag (n : Nat) (payload : Val)
  deriving DecidableEq, Repr

/-- Serialize one scalar. -/
def serLeaf : Leaf → EncM Unit
  | .lU8 n => visit_u8 n
  | .lU64 n => visit_u64 n
  | .lText s => visit_str s

/-- UTF-8 bytes of the `CborTagEncode` field name `"tag"`. -/
def tagFieldName : List Nat := [116, 97, 103]

/-- UTF-8 bytes of the `CborTagEncode` field name `"data"`. -/
def dataFieldName : List Nat := [100, 97, 116, 97]

/-- Serialize a fragment value, following exactly the serde-driven call
sequence: a map goes through `visit_map` with one `visit_map_elt` per pair
(string key, scalar value); a tag wrapper goes through
`visit_struct "CborTagEncode"` whose two fields `tag` and `data` are emitted
through `visit_map_elt` (the tag number through `visit_u64`). -/
def serVal : Val → EncM Unit
  | .leaf l => serLeaf l
  | .vMap kvs =>
    visit_map (kvs.map fun kv => visit_map_elt (visit_str kv.1) (serLeaf kv.2))
  | .vTag n payload =>
    visit_struct "CborTagEncode"
      [visit_map_elt (visit_str tagFieldName) (visit_u64 n),
       visit_map_elt (visit_str dataFieldName) (serVal payload)]

/-! ## Deserializer -/

/-- State of `Deserializer<R>` over an in-memory cursor: the pending marker
slot `first`, the unread bytes of the cursor, and `CborReader`'s counters
`bytes_read` / `last_offset`.  The pushback buffer of `CborReader` is omitted:
nothing in the sources ever appends to it. -/
structure DState where
  first : Option Nat
  input : List Nat
  bytesRead : Nat
  lastOffset : Nat
  deriving DecidableEq, Repr

/-- Outcome of a decode step.  `panicked` models a Rust `panic!` /
`unreachable!`, `diverged` models an infinite loop (`CborReader::read_full` on
a short stream never exits), and `outOfFuel` is the artifact of the fuel used
to make the recursion structural — no theorem below treats it as a result. -/
inductive Outcome (α : Type) where
  | ok (a : α)
  | fail (e : CborError)
  | panicked (msg : String)
  | diverged
  | outOfFuel
  deriving DecidableEq, Repr

/-- Decoder monad. -/
def DecM (α : Type) : Type := DState → Outcome (α × DState)

instance : Monad DecM where
  pure a := fun r => .ok (a, r)
  bind x f := fun r =>
    match x r with
    | .ok (a, r') => f a r'
    | .fail e => .fail e
    | .panicked m => .panicked m
    | .diverged => .diverged
    | .outOfFuel => .outOfFuel

/-- Read one byte from the reader (`byteorder`'s `read_u8` on the
`CborReader`): at end of stream this is an I/O error; otherwise `last_offset`
becomes the old `bytes_read` and `bytes_read` advances by one.  Source bytes
are `u8`, hence the `% 256`. -/
def readByte : DecM Nat := fun r =>
  match r.input with
  | [] => .fail (.ioError "failed to fill whole buffer")
  | b :: rest => .ok (b % 256, ⟨r.first, rest, r.bytesRead + 1, r.bytesRead⟩)

/-- Read `k` bytes big-endian in one underlying cursor read (`byteorder`'s
`read_u16/u32/u64`): on a short stream this is an I/O error; on success
`last_offset` is the old `bytes_read` (the read's starting offset). -/
def readBE (k : Nat) : DecM Nat := fun r =>
  if k ≤ r.input.length then
    .ok (beVal ((r.input.take k).map (· % 256)),
      ⟨r.first, r.input.drop k, r.bytesRead + k, r.bytesRead⟩)
  else .fail (.ioError "failed to fill whole buffer")

/-- `CborReader::read_full` as used with an in-memory cursor: a zero-length
request performs no read at all; a satisfiable request is served by a single
underlying read; a short stream makes the `while` loop spin on `Ok(0)` reads
forever (see `read_full_loop` below), which we record as `diverged`. -/
def readFullM (len : Nat) : DecM (List Nat) := fun r =>
  if len = 0 then .ok ([], r)
  else if len ≤ r.input.length then
    .ok ((r.input.take len).map (· % 256),
      ⟨r.first, r.input.drop len, r.bytesRead + len, r.bytesRead⟩)
  else .diverged

/-- `Deserializer::read_marker` (deserializer.rs lines 77-82): take the pending
marker if present, otherwise read one byte. -/
def read_marker : DecM Nat := fun r =>
  match r.first with
  | some v => .ok (v, ⟨none, r.input, r.bytesRead, r.lastOffset⟩)
  | none => readByte r

/-- `Deserializer::peek_marker` (lines 66-75): like `read_marker` but the
marker stays pending. -/
def peek_marker : DecM Nat := fun r =>
  match r.first with
  | some v => .ok (v, r)
  | none =>
    match readByte r with
    | .ok (b, r') => .ok (b, ⟨some b, r'.input, r'.bytesRead, r'.lastOffset⟩)
    | .fail e => .fail e
    | .panicked m => .panicked m
    | .diverged => .diverged
    | .outOfFuel => .outOfFuel

/-- `Deserializer::read_usize` (lines 222-234) with the magnitude the visitor
receives: additional info 0-23 is the inline value, 24/25/26/27 selects a
1/2/4/8-byte big-endian follow-on, anything else is an
`InvalidAddValue { ty: Type::UInt }` error at the current offset. -/
def read_usize_n (first : Nat) : DecM Nat :=
  let add := first &&& 31
  if add ≤ 23 then pure add
  else if add = 24 then readByte
  else if add = 25 then readBE 2
  else if add = 26 then readBE 4
  else if add = 27 then readBE 8
  else fun r => .fail (.AtOffset (.InvalidAddValue .UInt add) r.lastOffset)

/-- `Deserializer::read_len` (lines 122-124): `read_usize` driving serde's
primitive `usize` visitor, which accepts every width unchanged. -/
def read_len (first : Nat) : DecM Nat := read_usize_n first

/-- Which signed visitor method `read_isize` invokes, with the `Int` value it
passes. -/
inductive IVis where
  | i8 (v : Int)
  | i16 (v : Int)
  | i32 (v : Int)
  | i64 (v : Int)
  deriving DecidableEq, Repr

/-- The `Int` value carried by an `IVis`. -/
def IVis.val : IVis → Int
  | .i8 v | .i16 v | .i32 v | .i64 v => v

/-- `Deserializer::read_isize` (lines 180-220): read the unsigned magnitude
`n` per the width rule and visit `-1 - n`, promoting to the next wider signed
visitor exactly when `n` exceeds the narrower signed maximum; width 27 fails
with a range error (through `errstr`, hence with offset) when `n` exceeds
`i64::MAX`. -/
def read_isize (first : Nat) : DecM IVis :=
  let add := first &&& 31
  if add ≤ 23 then pure (.i8 (-1 - (add : Int)))
  else if add = 24 then
    bind readByte fun n =>
      if n > 127 then pure (.i16 (-1 - (n : Int)))
      else pure (.i8 (-1 - (n : Int)))
  else if add = 25 then
    bind (readBE 2) fun n =>
      if n > 32767 then pure (.i32 (-1 - (n : Int)))
      else pure (.i16 (-1 - (n : Int)))
  else if add = 26 then
    bind (readBE 4) fun n =>
      if n > 2147483647 then pure (.i64 (-1 - (n : Int)))
      else pure (.i32 (-1 - (n : Int)))
  else if add = 27 then
    bind (readBE 8) fun n =>
      if n > 9223372036854775807 then
        fun r => .fail (.AtOffset (.Other ("Negative integer out of range: " ++ toString n))
          r.lastOffset)
      else pure (.i64 (-1 - (n : Int)))
  else fun r => .fail (.AtOffset (.InvalidAddValue .Int add) r.lastOffset)

/-- `Deserializer::read_type` (lines 126-132): pass the marker through when its
major type matches, otherwise a `TypeMismatch` error built by `miss` — note
`miss` wraps it in `CborError::Decode`, without an offset. -/
def read_type (first : Nat) (expected : CborType) : DecM Nat := fun r =>
  if first >>> 5 = expected.major then .ok (first, r)
  else .fail (.Decode (.TypeMismatch expected first))

/-- Modelled from the spec: UTF-8 validity of a byte list, as checked by
`String::from_utf8` (spec: "validate as UTF-8; invalid UTF-8 is a decode
error").  Standard table: disallowed are bare continuation bytes, overlong
forms (C0/C1, E0 80-9F, F0 80-8F), surrogates (ED A0-BF) and code points above
U+10FFFF (F4 90+ and F5-FF). -/
def validUtf8 : List Nat → Bool
  | [] => true
  | b :: rest =>
    if b < 128 then validUtf8 rest
    else if b < 194 then false
    else if b < 224 then
      match rest with
      | c1 :: r => (128 ≤ c1 && c1 < 192) && validUtf8 r
      | [] => false
    else if b < 240 then
      match rest with
      | c1 :: c2 :: r =>
        (if b = 224 then 160 ≤ c1 && c1 < 192
         else if b = 237 then 128 ≤ c1 && c1 < 160
         else 128 ≤ c1 && c1 < 192)
        && (128 ≤ c2 && c2 < 192) && validUtf8 r
      | _ => false
    else if b < 245 then
      match rest with
      | c1 :: c2 :: c3 :: r =>
        (if b = 240 then 144 ≤ c1 && c1 < 192
         else if b = 244 then 128 ≤ c1 && c1 < 144
         else 128 ≤ c1 && c1 < 192)
        && (128 ≤ c2 && c2 < 192) && (128 ≤ c3 && c3 < 192) && validUtf8 r
      | _ => false
    else false

/-- `Deserializer::read_string` (lines 262-276): `read_type` against
`Type::Unicode`, length, a full read of that many bytes, then UTF-8
validation; a validation failure goes through `errstr` and so carries the
offset. -/
def read_string (first : Nat) : DecM (List Nat) :=
  bind (read_type first .Unicode) fun b =>
  bind (read_len b) fun len =>
  bind (readFullM len) fun bs =>
  if validUtf8 bs then pure bs
  else fun r => .fail (.AtOffset (.Other "invalid utf-8") r.lastOffset)

/-- `Deserializer::read_bytes` (lines 278-286): length then a full read. -/
def read_bytes (first : Nat) : DecM (List Nat) :=
  bind (read_len first) fun len => readFullM len

/-- The CBOR item a universal visitor assembles (e.g. serde's generic value
types): `unum`/`inum` record the value the `visit_uN` / `visit_iN` callback
receives, `halfFloat`/`f32bits`/`f64bits` record the raw big-endian payload
handed to `visit_f64`/`visit_f32` (the half-precision case widens the raw
`u16` numerically — see the source comment at deserializer.rs line 166). -/
inductive Item where
  | unum (n : Nat)
  | inum (i : Int)
  | bool (b : Bool)
  | unit
  | text (utf8 : List Nat)
  | bytes (bs : List Nat)
  | arr (xs : List Item)
  | map (kvs : List (Item × Item))
  | halfFloat (raw : Nat)
  | f32bits (raw : Nat)
  | f64bits (raw : Nat)

/-- `Deserializer::read_simple_value` (lines 134-153): 20/21/22 are
false/true/unit, 0-19 and 32-255 are unassigned errors, 24-31 reserved errors
(all through `errat`, with offset) — and 23 is `panic!("unimplemented")`. -/
def read_simple_value (val : Nat) : DecM Item :=
  if val ≤ 19 then fun r => .fail (.AtOffset (.Unassigned 7 val) r.lastOffset)
  else if val = 20 then pure (.bool false)
  else if val = 21 then pure (.bool true)
  else if val = 22 then pure .unit
  else if val = 23 then fun _ => .panicked "unimplemented"
  else if val ≤ 31 then fun r => .fail (.AtOffset (.Reserved 7 val) r.lastOffset)
  else fun r => .fail (.AtOffset (.Unassigned 7 val) r.lastOffset)

/-- Decode `n` further items with the element decoder `d` (the `SeqVisitor`
pull cursor, lines 288-316, driven by a consumer that pulls until `None`). -/
def decodeList (d : DecM Item) : Nat → DecM (List Item)
  | 0 => pure []
  | n + 1 =>
    bind d fun x =>
    bind (decodeList d n) fun xs =>
    pure (x :: xs)

/-- Decode `n` further key/value pairs with the decoder `d` (the `MapVisitor`
pull cursor, lines 318-353; note `visit_key` deserializes the key with no
check of its major type). -/
def decodePairs (d : DecM Item) : Nat → DecM (List (Item × Item))
  | 0 => pure []
  | n + 1 =>
    bind d fun k =>
    bind d fun v =>
    bind (decodePairs d n) fun kvs =>
    pure ((k, v) :: kvs)

/-- One layer of `Deserializer::visit` / `read_value` (lines 84-120 and
355-365) for a universal visitor, parameterized by the decoder `prev` used for
nested items: read a marker and dispatch on its major type; major 6 is
`read_tag`, i.e. just `read_usize` on the same marker (the payload is left for
a subsequent call); major 7 additional info 28-30 is an unassigned error,
24 reads one more simple-value byte, 25/26/27 are the float widths — and
additional info 31 falls into the source's `unreachable!("bah2 ...")` arm,
while a major type above 7 (impossible for a `u8`) would hit
`unreachable!("bah! ...")`. -/
def decodeItemF (prev : DecM Item) : DecM Item :=
  bind read_marker fun first =>
  if first >>> 5 = 0 then
    bind (read_usize_n first) fun n => pure (.unum n)
  else if first >>> 5 = 1 then
    bind (read_isize first) fun v => pure (.inum v.val)
  else if first >>> 5 = 2 then
    bind (read_bytes first) fun bs => pure (.bytes bs)
  else if first >>> 5 = 3 then
    bind (read_string first) fun bs => pure (.text bs)
  else if first >>> 5 = 4 then
    bind (read_len first) fun len =>
    bind (decodeList prev len) fun xs => pure (.arr xs)
  else if first >>> 5 = 5 then
    bind (read_len first) fun len =>
    bind (decodePairs prev len) fun kvs => pure (.map kvs)
  else if first >>> 5 = 6 then
    bind (read_usize_n first) fun n => pure (.unum n)
  else if first >>> 5 = 7 then
    let add := first &&& 31
    if add ≤ 23 then read_simple_value add
    else if add = 24 then bind readByte fun b => read_simple_value b
    else if add = 25 then bind (readBE 2) fun n => pure (.halfFloat n)
    else if add = 26 then bind (readBE 4) fun n => pure (.f32bits n)
    else if add = 27 then bind (readBE 8) fun n => pure (.f64bits n)
    else if add ≤ 30 then fun r => .fail (.AtOffset (.Unassigned 7 add) r.lastOffset)
    else fun _ => .panicked "bah2"
  else fun _ => .panicked "bah!"

/-- The full generic decode (`Deserialize::deserialize` with a universal
visitor), with a recursion-depth fuel.  `decodeItem (fuel+1)` is one dispatch
layer whose nested items use `decodeItem fuel`; decoding a value of nesting
depth `d` succeeds for every fuel above `d`. -/
def decodeItem (fuel : Nat) : DecM Item :=
  Nat.rec (fun _ => Outcome.outOfFuel) (fun _ prev => decodeItemF prev) fuel

/-- Head of `Deserializer::visit_enum`'s dispatch: a unit variant named by a
plain string, or the single key of a one-pair variant map (after which the
fields are decoded from the same decoder state). -/
inductive EnumHead where
  | strVariant (name : List Nat)
  | mapVariant (name : List Nat)
  deriving DecidableEq, Repr

/-- Modelled from the spec: serde's variant-name deserialization
(`StringVariantVisitor::visit_variant` and the map branch's name decode) — a
generic `visit` whose string visitor accepts only major type 3; the read then
follows `read_string`. -/
def decString : DecM (List Nat) :=
  bind read_marker fun first =>
  if first >>> 5 = 3 then read_string first
  else fun _ => .fail (.Decode (.TypeMismatch .Unicode first))

/-- `Deserializer::visit_enum` (lines 385-413): peek the marker; major type 3
decodes a unit variant named by the string; major type 5 clears the pending
marker, reads the pair count, fails unless it is exactly 1, then decodes the
case-name key and leaves the decoder positioned at the fields; any other major
type is an error.  Both failure messages go through `errstr` (offset
attached). -/
def visit_enum : DecM EnumHead :=
  bind peek_marker fun first =>
  if first >>> 5 = 3 then
    bind decString fun name => pure (.strVariant name)
  else if first >>> 5 = 5 then
    fun r =>
      (bind (read_len first) fun len =>
        if len ≠ 1 then
          fun r' => .fail (.AtOffset (.Other "Too many fields in variant map") r'.lastOffset)
        else
          bind decString fun name => pure (.mapVariant name))
      ⟨none, r.input, r.bytesRead, r.lastOffset⟩
  else
    fun r => .fail (.AtOffset (.Other "Expected variant map") r.lastOffset)

/-- The loop of `CborReader::read_full` (deserializer.rs lines 521-527) over an
in-memory cursor with `avail` bytes left: each `read` returns
`min (buf.len() - n) avail` bytes (zero once the cursor is exhausted) and the
loop exits only when `n` reaches `k = buf.len()`.  `fuel` counts loop
iterations; `none` means the loop was still running after `fuel` iterations —
there is no error exit at all when `read` keeps returning `Ok(0)`. -/
def read_full_loop (k : Nat) : Nat → Nat → Nat → Option Nat
  | 0, _, _ => none
  | fuel + 1, n, avail =>
    if n < k then read_full_loop k fuel (n + min (k - n) avail) (avail - min (k - n) avail)
    else some n

/-- Decode errors that respect the spec's offset policy: either a decode error
wrapped with its stream offset, or a plain I/O error (which per §7 carries no
offset of its own). -/
def offOrIo (e : CborError) : Prop :=
  (∃ kind off, e = .AtOffset kind off) ∨ (∃ msg, e = .ioError msg)

/-- A decoder step whose every failure satisfies `offOrIo`. -/
def GoodM {α : Type} (m : DecM α) : Prop :=
  ∀ r e, m r = .fail e → offOrIo e

/-! ## Helper lemmas -/

theorem DecM.bind_eq {α β : Type} (x : DecM α) (f : α → DecM β) (r : DState) :
    (bind x f) r =
      match x r with
      | .ok (a, r') => f a r'
      | .fail e => .fail e
      | .panicked m => .panicked m
      | .diverged => .diverged
      | .outOfFuel => .outOfFuel := rfl

theorem DecM.bind_ok {α β : Type} {x : DecM α} {f : α → DecM β} {r r' : DState} {a : α}
    (h : x r = .ok (a, r')) : (bind x f) r = f a r' := by
  rw [DecM.bind_eq, h]

theorem beBytes_length (k n : Nat) : (beBytes k n).length = k := by
  induction k generalizing n with
  | zero => rfl
  | succ k ih => simp [beBytes, ih]

theorem beBytes_map_mod (k n : Nat) : (beBytes k n).map (· % 256) = beBytes k n := by
  induction k generalizing n with
  | zero => rfl
  | succ k ih => simp [beBytes, ih]

theorem beVal_foldl (bs : List Nat) (a : Nat) :
    bs.foldl (fun acc b => acc * 256 + b) a = a * 256 ^ bs.length + beVal bs := by
  induction bs generalizing a with
  | nil => simp [beVal]
  | cons x bs ih =>
    show bs.foldl _ (a * 256 + x) = _
    rw [ih (a * 256 + x)]
    have hx : beVal (x :: bs) = x * 256 ^ bs.length + beVal bs := by
      show bs.foldl _ (0 * 256 + x) = _
      simpa using ih (0 * 256 + x)
    rw [hx, List.length_cons, pow_succ]
    ring

theorem beVal_beBytes (k n : Nat) : beVal (beBytes k n) = n % 256 ^ k := by
  induction k generalizing n with
  | zero => simp [beBytes, beVal, Nat.mod_one]
  | succ k ih =>
    have h1 : beVal (beBytes (k + 1) n) =
        (n / 256 ^ k % 256) * 256 ^ k + beVal (beBytes k n) := by
      show beVal ((n / 256 ^ k % 256) :: beBytes k n) = _
      show (beBytes k n).foldl _ (0 * 256 + (n / 256 ^ k % 256)) = _
      rw [beVal_foldl, beBytes_length]
      ring
    have hdvd : (256 : Nat) ^ k ∣ 256 ^ k * 256 := dvd_mul_right _ _
    have h2 : n % (256 ^ k * 256) % 256 ^ k = n % 256 ^ k := Nat.mod_mod_of_dvd n hdvd
    have h3 : n % (256 ^ k * 256) / 256 ^ k = n / 256 ^ k % 256 :=
      Nat.mod_mul_right_div_self n (256 ^ k) 256
    have h4 := Nat.div_add_mod (n % (256 ^ k * 256)) (256 ^ k)
    calc beVal (beBytes (k + 1) n)
        = (n / 256 ^ k % 256) * 256 ^ k + n % 256 ^ k := by rw [h1, ih]
      _ = 256 ^ k * (n % (256 ^ k * 256) / 256 ^ k) + n % (256 ^ k * 256) % 256 ^ k := by
          rw [h3, h2]; ring
      _ = n % (256 ^ k * 256) := h4
      _ = n % 256 ^ (k + 1) := by rw [pow_succ]

theorem readBE_beBytes (k n : Nat) (fst : Option Nat) (rest : List Nat) (br lo : Nat)
    (hn : n < 256 ^ k) :
    readBE k ⟨fst, beBytes k n ++ rest, br, lo⟩ = .ok (n, ⟨fst, rest, br + k, br⟩) := by
  have hlen : (beBytes k n ++ rest).length = k + rest.length := by
    simp [beBytes_length]
  have htake : (beBytes k n ++ rest).take k = beBytes k n := by
    have := List.take_left (beBytes k n) rest
    rwa [beBytes_length] at this
  have hdrop : (beBytes k n ++ rest).drop k = rest := by
    have := List.drop_left (beBytes k n) rest
    rwa [beBytes_length] at this
  simp only [readBE, hlen, htake, hdrop, beBytes_map_mod, beVal_beBytes]
  rw [if_pos (by omega), Nat.mod_eq_of_lt hn]

theorem read_full_loop_stuck (k : Nat) : ∀ fuel n, n < k → read_full_loop k fuel n 0 = none := by
  intro fuel
  induction fuel with
  | zero => intro n _; rfl
  | succ fuel ih =>
    intro n hn
    simp only [read_full_loop, if_pos hn, Nat.min_zero, Nat.add_zero, Nat.sub_zero]
    exact ih n hn

theorem read_full_loop_short (k avail : Nat) (h : avail < k) :
    ∀ fuel, read_full_loop k fuel 0 avail = none := by
  intro fuel
  cases fuel with
  | zero => rfl
  | succ fuel =>
    have hmin : min (k - 0) avail = avail := by omega
    simp only [read_full_loop, if_pos (by omega : 0 < k), hmin, Nat.zero_add, Nat.sub_self]
    exact read_full_loop_stuck k fuel avail h

theorem good_pure {α : Type} (a : α) : GoodM (pure a : DecM α) := by
  intro r e h
  exact absurd h (by simp [pure])

theorem good_bind {α β : Type} {x : DecM α} {f : α → DecM β}
    (hx : GoodM x) (hf : ∀ a, GoodM (f a)) : GoodM (bind x f) := by
  intro r e h
  rw [DecM.bind_eq] at h
  cases hxr : x r with
  | ok p =>
    obtain ⟨a, r'⟩ := p
    rw [hxr] at h
    exact hf a r' e h
  | fail f' =>
    rw [hxr] at h
    simp only [Outcome.fail.injEq] at h
    subst h
    exact hx r f' hxr
  | panicked m => rw [hxr] at h; simp at h
  | diverged => rw [hxr] at h; simp at h
  | outOfFuel => rw [hxr] at h; simp at h

theorem good_ite {α : Type} {c : Prop} [Decidable c] {a b : DecM α}
    (ha : c → GoodM a) (hb : ¬c → GoodM b) : GoodM (if c then a else b) := by
  by_cases h : c
  · simpa [h] using ha h
  · simpa [h] using hb h

theorem good_fail_at {α : Type} (kind : DState → ReadError) (off : DState → Nat) :
    GoodM (fun r => (.fail (.AtOffset (kind r) (off r)) : Outcome (α × DState))) := by
  intro r e h
  simp only [Outcome.fail.injEq] at h
  subst h
  exact Or.inl ⟨_, _, rfl⟩

theorem good_readByte : GoodM readByte := by
  intro r e h
  obtain ⟨fst, inp, br, lo⟩ := r
  cases inp with
  | nil =>
    simp only [readByte, Outcome.fail.injEq] at h
    subst h
    exact Or.inr ⟨_, rfl⟩
  | cons b rest => simp [readByte] at h

theorem good_readBE (k : Nat) : GoodM (readBE k) := by
  intro r e h
  unfold readBE at h
  by_cases hk : k ≤ r.input.length
  · simp [hk] at h
  · simp only [hk, if_false, Outcome.fail.injEq] at h
    subst h
    exact Or.inr ⟨_, rfl⟩

theorem good_readFullM (len : Nat) : GoodM (readFullM len) := by
  intro r e h
  unfold readFullM at h
  by_cases h0 : len = 0
  · simp [h0] at h
  · by_cases hk : len ≤ r.input.length <;> simp [h0, hk] at h

theorem good_read_marker : GoodM read_marker := by
  intro r e h
  obtain ⟨fst, inp, br, lo⟩ := r
  cases fst with
  | some v => simp [read_marker] at h
  | none => exact good_readByte _ e h

theorem good_panicked {α : Type} (msg : String) :
    GoodM (fun _ => (.panicked msg : Outcome (α × DState))) := by
  intro r e h
  exact Outcome.noConfusion h

theorem good_read_usize_n (first : Nat) : GoodM (read_usize_n first) := by
  unfold read_usize_n
  refine good_ite (fun _ => good_pure _) fun _ => ?_
  refine good_ite (fun _ => good_readByte) fun _ => ?_
  refine good_ite (fun _ => good_readBE 2) fun _ => ?_
  refine good_ite (fun _ => good_readBE 4) fun _ => ?_
  refine good_ite (fun _ => good_readBE 8) fun _ => ?_
  exact good_fail_at _ _

theorem good_read_len (first : Nat) : GoodM (read_len first) := good_read_usize_n first

theorem good_read_isize (first : Nat) : GoodM (read_isize first) := by
  unfold read_isize
  refine good_ite (fun _ => good_pure _) fun _ => ?_
  refine good_ite (fun _ => good_bind good_readByte fun n => good_ite (fun _ => good_pure _)
    fun _ => good_pure _) fun _ => ?_
  refine good_ite (fun _ => good_bind (good_readBE 2) fun n => good_ite (fun _ => good_pure _)
    fun _ => good_pure _) fun _ => ?_
  refine good_ite (fun _ => good_bind (good_readBE 4) fun n => good_ite (fun _ => good_pure _)
    fun _ => good_pure _) fun _ => ?_
  refine good_ite (fun _ => good_bind (good_readBE 8) fun n => good_ite
    (fun _ => good_fail_at _ _) fun _ => good_pure _) fun _ => ?_
  exact good_fail_at _ _

theorem good_read_simple_value (val : Nat) : GoodM (read_simple_value val) := by
  unfold read_simple_value
  refine good_ite (fun _ => good_fail_at _ _) fun _ => ?_
  refine good_ite (fun _ => good_pure _) fun _ => ?_
  refine good_ite (fun _ => good_pure _) fun _ => ?_
  refine good_ite (fun _ => good_pure _) fun _ => ?_
  refine good_ite (fun _ => good_panicked _) fun _ => ?_
  exact good_ite (fun _ => good_fail_at _ _) fun _ => good_fail_at _ _

theorem good_read_type_unicode (first : Nat) (h3 : first >>> 5 = 3) :
    GoodM (read_type first .Unicode) := by
  intro r e h
  simp [read_type, CborType.major, h3] at h

theorem good_read_string (first : Nat) (h3 : first >>> 5 = 3) :
    GoodM (read_string first) := by
  unfold read_string
  refine good_bind (good_read_type_unicode first h3) fun b => ?_
  refine good_bind (good_read_len b) fun len => ?_
  refine good_bind (good_readFullM len) fun bs => ?_
  exact good_ite (fun _ => good_pure _) fun _ => good_fail_at _ _

theorem good_read_bytes (first : Nat) : GoodM (read_bytes first) := by
  unfold read_bytes
  exact good_bind (good_read_len first) fun len => good_readFullM len

theorem good_decodeList {d : DecM Item} (hd : GoodM d) (n : Nat) : GoodM (decodeList d n) := by
  induction n with
  | zero => exact good_pure _
  | succ n ih =>
    exact good_bind hd fun x => good_bind ih fun xs => good_pure _

theorem good_decodePairs {d : DecM Item} (hd : GoodM d) (n : Nat) : GoodM (decodePairs d n) := by
  induction n with
  | zero => exact good_pure _
  | succ n ih =>
    exact good_bind hd fun k => good_bind hd fun v => good_bind ih fun kvs => good_pure _

theorem good_decodeItemF {prev : DecM Item} (hprev : GoodM prev) : GoodM (decodeItemF prev) := by
  unfold decodeItemF
  refine good_bind good_read_marker fun first => ?_
  refine good_ite (fun _ => good_bind (good_read_usize_n first) fun n => good_pure _) fun _ => ?_
  refine good_ite (fun _ => good_bind (good_read_isize first) fun v => good_pure _) fun _ => ?_
  refine good_ite (fun _ => good_bind (good_read_bytes first) fun bs => good_pure _) fun _ => ?_
  refine good_ite (fun h3 => good_bind (good_read_string first h3) fun bs => good_pure _)
    fun _ => ?_
  refine good_ite (fun _ => good_bind (good_read_len first) fun len =>
    good_bind (good_decodeList hprev len) fun xs => good_pure _) fun _ => ?_
  refine good_ite (fun _ => good_bind (good_read_len first) fun len =>
    good_bind (good_decodePairs hprev len) fun kvs => good_pure _) fun _ => ?_
  refine good_ite (fun _ => good_bind (good_read_usize_n first) fun n => good_pure _) fun _ => ?_
  refine good_ite (fun _ => ?_) fun _ => good_panicked _
  refine good_ite (fun _ => good_read_simple_value _) fun _ => ?_
  refine good_ite (fun _ => good_bind good_readByte fun b => good_read_simple_value b) fun _ => ?_
  refine good_ite (fun _ => good_bind (good_readBE 2) fun n => good_pure _) fun _ => ?_
  refine good_ite (fun _ => good_bind (good_readBE 4) fun n => good_pure _) fun _ => ?_
  refine good_ite (fun _ => good_bind (good_readBE 8) fun n => good_pure _) fun _ => ?_
  refine good_ite (fun _ => good_fail_at _ _) fun _ => good_panicked _

theorem good_decodeItem (fuel : Nat) : GoodM (decodeItem fuel) := by
  induction fuel with
  | zero =>
    intro r e h
    exact Outcome.noConfusion h
  | succ n ih => exact good_decodeItemF ih

/-! ## Claim theorems -/

/-- C1: the round-trip claim fails on the code.  A tag wrapper around a
string-keyed map encodes, via `visit_struct "CborTagEncode"`, to
`[0xC6, 0xA1, 0x01]`: because the `tag` flag is still set when the inner map's
pair is emitted, `visit_map_elt` skips the key `"a"` and the map body is a
one-pair head followed by only the value.  Decoding those bytes reads the tag
number 6 and then fails inside the map payload (the declared pair has no
second element), so no decode returns the original value; the last conjunct
shows the bytes a key-preserving encoding would produce do decode to the
one-pair map. -/
theorem tag_wrapped_map_breaks_round_trip :
    serVal (.vTag 6 (.vMap [([97], .lU8 1)])) initS
      = (.ok (), ⟨[198, 161, 1], false, false, true, false⟩)
    ∧ decodeItem 9 ⟨none, [198, 161, 1], 0, 0⟩ = .ok (.unum 6, ⟨none, [161, 1], 1, 0⟩)
    ∧ decodeItem 9 ⟨none, [161, 1], 0, 0⟩ = .fail (.ioError "failed to fill whole buffer")
    ∧ decodeItem 9 ⟨none, [161, 97, 97, 1], 0, 0⟩
        = .ok (.map [(.text [97], .unum 1)], ⟨none, [], 4, 3⟩) :=
  ⟨rfl, rfl, rfl, rfl⟩

/-- C2: `write_num` selects the canonical minimal width: 1 byte total for
`n ≤ 23`, 2 for `n ≤ 255`, 3 for `n ≤ 65535`, 5 for `n ≤ 2^32 - 1`, else 9;
the head byte carries the matching additional info (the value inline, or
24/25/26/27), and each boundary pair 23/24, 255/256, 65535/65536,
4294967295/4294967296 selects the next wider encoding. -/
theorem write_num_minimal_width :
    (∀ major n, (write_num major n).length =
      if n ≤ 23 then 1 else if n ≤ 255 then 2 else if n ≤ 65535 then 3
      else if n ≤ 4294967295 then 5 else 9)
    ∧ (∀ major n, (write_num major n).head? =
      some ((major <<< 5) ||| (if n ≤ 23 then n else if n ≤ 255 then 24
        else if n ≤ 65535 then 25 else if n ≤ 4294967295 then 26 else 27)))
    ∧ (write_num 0 23).length = 1 ∧ (write_num 0 24).length = 2
    ∧ (write_num 0 255).length = 2 ∧ (write_num 0 256).length = 3
    ∧ (write_num 0 65535).length = 3 ∧ (write_num 0 65536).length = 5
    ∧ (write_num 0 4294967295).length = 5 ∧ (write_num 0 4294967296).length = 9 := by
  refine ⟨?_, ?_, by decide, by decide, by decide, by decide, by decide, by decide,
    by decide, by decide⟩
  · intro major n
    unfold write_num
    split_ifs <;> simp [beBytes_length]
  · intro major n
    unfold write_num
    split_ifs <;> simp

/-- C3: the claim that `read_full` terminates and reports an I/O error on a
short stream fails on the code.  Over an exhausted (or too-short) in-memory
source every `read` returns `Ok(0)`, `n` never advances, and the `while n <
buf.len()` loop runs forever: for every iteration bound `fuel` the loop is
still running (`none`), for a 1-byte request against an empty source and for a
5-byte request against a 2-byte source alike; the loop body has no error
exit. -/
theorem read_full_short_stream_loops_forever :
    (∀ fuel, read_full_loop 1 fuel 0 0 = none)
    ∧ (∀ fuel, read_full_loop 5 fuel 0 2 = none) :=
  ⟨read_full_loop_short 1 0 (by omega), read_full_loop_short 5 2 (by omega)⟩

/-- C4: the claim that decoding never crashes fails on the code.  The single
byte `0xF7` (= 247: major type 7, additional info 23) dispatches to
`read_simple_value(23)`, which is `panic!("unimplemented")` — a crash, not a
typed error value. -/
theorem decode_simple_value_23_panics :
    decodeItem 2 ⟨none, [247], 0, 0⟩ = .panicked "unimplemented" := rfl

/-- C5: the flag-reset claim fails on the code.  After the tag-wrapper
composite `CborTagEncode { tag: 6, data: 1u8 }` encodes successfully (bytes
`[0xC6, 0x01]`), the `tag` flag is still `true` — `visit_struct` sets it and
nothing clears it — so a following top-level `visit_u64(23)` is emitted as the
major-type-6 marker `0xD7` instead of `0x17`. -/
theorem tag_flag_survives_tag_wrapper :
    (serVal (.vTag 6 (.leaf (.lU8 1))) initS).2.tag = true
    ∧ (bind (serVal (.vTag 6 (.leaf (.lU8 1)))) fun _ => visit_u64 23) initS
        = (.ok (), ⟨[198, 1, 215], false, false, true, false⟩) :=
  ⟨rfl, rfl⟩

/-- C6: negative-integer decode.  For additional info 0-23 the value `-1 - n`
is visited as `i8`; for width tag 24 the follow-on byte `n` promotes to `i16`
exactly when `n > i8::MAX = 127`; for 25 to `i32` exactly when
`n > i16::MAX = 32767`; for 26 to `i64` exactly when
`n > i32::MAX = 2147483647`; and for 27 the decode fails with a range error
(offset attached) exactly when `n > i64::MAX`, otherwise visiting
`-1 - n` as `i64`. -/
theorem read_isize_negative_decode :
    (∀ m r, m &&& 31 ≤ 23 →
      read_isize m r = .ok (.i8 (-1 - ((m &&& 31 : Nat) : Int)), r))
    ∧ (∀ m fst br lo n rest, m &&& 31 = 24 → n < 256 →
      read_isize m ⟨fst, n :: rest, br, lo⟩ =
        .ok ((if 127 < n then .i16 (-1 - (n : Int)) else .i8 (-1 - (n : Int))),
          ⟨fst, rest, br + 1, br⟩))
    ∧ (∀ m fst br lo n rest, m &&& 31 = 25 → n < 65536 →
      read_isize m ⟨fst, beBytes 2 n ++ rest, br, lo⟩ =
        .ok ((if 32767 < n then .i32 (-1 - (n : Int)) else .i16 (-1 - (n : Int))),
          ⟨fst, rest, br + 2, br⟩))
    ∧ (∀ m fst br lo n rest, m &&& 31 = 26 → n < 4294967296 →
      read_isize m ⟨fst, beBytes 4 n ++ rest, br, lo⟩ =
        .ok ((if 2147483647 < n then .i64 (-1 - (n : Int)) else .i32 (-1 - (n : Int))),
          ⟨fst, rest, br + 4, br⟩))
    ∧ (∀ m fst br lo n rest, m &&& 31 = 27 → n < 18446744073709551616 →
      read_isize m ⟨fst, beBytes 8 n ++ rest, br, lo⟩ =
        if 9223372036854775807 < n then
          .fail (.AtOffset (.Other ("Negative integer out of range: " ++ toString n)) br)
        else .ok (.i64 (-1 - (n : Int)), ⟨fst, rest, br + 8, br⟩)) := by
  refine ⟨?_, ?_, ?_, ?_, ?_⟩
  · intro m r h
    unfold read_isize
    rw [if_pos h]
    rfl
  · intro m fst br lo n rest h24 hn
    unfold read_isize
    rw [if_neg (by omega), if_pos h24]
    have hb : readByte ⟨fst, n :: rest, br, lo⟩ = .ok (n, ⟨fst, rest, br + 1, br⟩) := by
      simp [readByte, Nat.mod_eq_of_lt hn]
    rw [DecM.bind_ok hb]
    by_cases h127 : 127 < n
    · simp only [if_pos h127]; rfl
    · simp only [if_neg h127]; rfl
  · intro m fst br lo n rest h25 hn
    unfold read_isize
    rw [if_neg (by omega), if_neg (by omega), if_pos h25,
      DecM.bind_ok (readBE_beBytes 2 n fst rest br lo (by norm_num; omega))]
    by_cases hp : 32767 < n
    · simp only [if_pos hp]; rfl
    · simp only [if_neg hp]; rfl
  · intro m fst br lo n rest h26 hn
    unfold read_isize
    rw [if_neg (by omega), if_neg (by omega), if_neg (by omega), if_pos h26,
      DecM.bind_ok (readBE_beBytes 4 n fst rest br lo (by norm_num; omega))]
    by_cases hp : 2147483647 < n
    · simp only [if_pos hp]; rfl
    · simp only [if_neg hp]; rfl
  · intro m fst br lo n rest h27 hn
    unfold read_isize
    rw [if_neg (by omega), if_neg (by omega), if_neg (by omega), if_neg (by omega),
      if_pos h27,
      DecM.bind_ok (readBE_beBytes 8 n fst rest br lo (by norm_num; omega))]
    by_cases hp : 9223372036854775807 < n
    · simp only [if_pos hp]
    · simp only [if_neg hp]; rfl

/-- C6 witness: width tag 24 with follow-on byte 200 promotes to `i16` with
value `-201`; width tag 27 with magnitude `2^63` fails with the range error at
offset 0. -/
theorem read_isize_negative_decode_witness :
    read_isize 56 ⟨none, [200], 0, 0⟩ = .ok (.i16 (-201), ⟨none, [], 1, 0⟩)
    ∧ read_isize 59 ⟨none, beBytes 8 9223372036854775808, 0, 0⟩ =
        .fail (.AtOffset (.Other ("Negative integer out of range: " ++
          toString (9223372036854775808 : Nat))) 0) := by
  constructor
  · rw [read_isize_negative_decode.2.1 56 none 0 0 200 [] (by decide) (by decide)]
    decide
  · have h := read_isize_negative_decode.2.2.2.2 59 none 0 0 9223372036854775808 []
      (by decide) (by norm_num)
    rw [List.append_nil] at h
    rw [h, if_pos (by norm_num)]

/-- C7 counterexample: with `emitting_key` set, `visit_none` fails with
`InvalidMapKey { got: None }` — the error identifies no attempted type, so the
claim that every blocked path reports the attempted type is false at this
input. -/
theorem visit_none_key_error_names_no_type :
    visit_none ⟨[], true, false, false, false⟩
      = (.err (.Encode (.InvalidMapKey none)), ⟨[], true, false, false, false⟩) := rfl

/-- C7 (amended): while `emitting_key` is set every non-string encode path
fails immediately with an invalid-map-key error and leaves the sink untouched
(the returned state is exactly the input state); the error carries the
attempted type for the unit / integer / float / bool / char / sequence /
tuple-struct / map / struct paths (with `char` reported as `UInt32`), and
carries `None` for the none / some / sequence-element / tuple-variant /
struct-variant / map-entry paths; encoding a text string as the key
succeeds. -/
theorem emitting_key_blocks_non_string_paths (s : SState) (h : s.emitting_key = true) :
    visit_unit s = (.err (.Encode (.InvalidMapKey (some .Null))), s)
    ∧ (∀ v, visit_usize v s = (.err (.Encode (.InvalidMapKey (some .UInt))), s))
    ∧ (∀ v, visit_u64 v s = (.err (.Encode (.InvalidMapKey (some .UInt64))), s))
    ∧ (∀ v, visit_u32 v s = (.err (.Encode (.InvalidMapKey (some .UInt32))), s))
    ∧ (∀ v, visit_u16 v s = (.err (.Encode (.InvalidMapKey (some .UInt16))), s))
    ∧ (∀ v, visit_u8 v s = (.err (.Encode (.InvalidMapKey (some .UInt8))), s))
    ∧ (∀ v, visit_isize v s = (.err (.Encode (.InvalidMapKey (some .Int))), s))
    ∧ (∀ v, visit_i64 v s = (.err (.Encode (.InvalidMapKey (some .Int64))), s))
    ∧ (∀ v, visit_i32 v s = (.err (.Encode (.InvalidMapKey (some .Int32))), s))
    ∧ (∀ v, visit_i16 v s = (.err (.Encode (.InvalidMapKey (some .Int16))), s))
    ∧ (∀ v, visit_i8 v s = (.err (.Encode (.InvalidMapKey (some .Int8))), s))
    ∧ (∀ b, visit_f64 b s = (.err (.Encode (.InvalidMapKey (some .Float64))), s))
    ∧ (∀ b, visit_f32 b s = (.err (.Encode (.InvalidMapKey (some .Float32))), s))
    ∧ (∀ b, visit_bool b s = (.err (.Encode (.InvalidMapKey (some .Bool))), s))
    ∧ (∀ c, visit_char c s = (.err (.Encode (.InvalidMapKey (some .UInt32))), s))
    ∧ visit_none s = (.err (.Encode (.InvalidMapKey none)), s)
    ∧ (∀ m, visit_some m s = (.err (.Encode (.InvalidMapKey none)), s))
    ∧ (∀ es, visit_seq es s = (.err (.Encode (.InvalidMapKey (some .Array))), s))
    ∧ (∀ nm es, visit_tuple_struct nm es s = (.err (.Encode (.InvalidMapKey (some .Map))), s))
    ∧ (∀ v es, visit_tuple_variant v es s = (.err (.Encode (.InvalidMapKey none)), s))
    ∧ (∀ m, visit_seq_elt m s = (.err (.Encode (.InvalidMapKey none)), s))
    ∧ (∀ es, visit_map es s = (.err (.Encode (.InvalidMapKey (some .Map))), s))
    ∧ (∀ nm es, visit_struct nm es s = (.err (.Encode (.InvalidMapKey (some .Map))), s))
    ∧ (∀ v es, visit_struct_variant v es s = (.err (.Encode (.InvalidMapKey none)), s))
    ∧ (∀ k v, visit_map_elt k v s = (.err (.Encode (.InvalidMapKey none)), s))
    ∧ (∀ v, visit_str v s =
        (.ok (), ⟨s.out ++ write_num 3 v.length ++ v, s.emitting_key, s.byte_string, s.tag,
          s.skip_key⟩)) := by
  refine ⟨by simp [visit_unit, h], fun v => by simp [visit_usize, h],
    fun v => by simp [visit_u64, h], fun v => by simp [visit_u32, h],
    fun v => by simp [visit_u16, h], fun v => by simp [visit_u8, h],
    fun v => by simp [visit_isize, h], fun v => by simp [visit_i64, h],
    fun v => by simp [visit_i32, h], fun v => by simp [visit_i16, h],
    fun v => by simp [visit_i8, h], fun b => by simp [visit_f64, h],
    fun b => by simp [visit_f32, h], fun b => by simp [visit_bool, h],
    fun c => by simp [visit_char, h], by simp [visit_none, h],
    fun m => by simp [visit_some, h], fun es => by simp [visit_seq, h],
    fun nm es => by simp [visit_tuple_struct, h], fun v es => by simp [visit_tuple_variant, h],
    fun m => by simp [visit_seq_elt, h], fun es => by simp [visit_map, h],
    fun nm es => by simp [visit_struct, h], fun v es => by simp [visit_struct_variant, h],
    fun k v => by simp [visit_map_elt, h], fun v => by simp [visit_str]⟩

/-- C7 witness: at the concrete key-mode state, `visit_u64 7` fails with the
`UInt64`-tagged invalid-map-key error and writes nothing, while
`visit_str "a"` succeeds and appends `[0x61, 0x61]`. -/
theorem emitting_key_blocks_non_string_paths_witness :
    visit_u64 7 ⟨[], true, false, false, false⟩
      = (.err (.Encode (.InvalidMapKey (some .UInt64))), ⟨[], true, false, false, false⟩)
    ∧ visit_str [97] ⟨[], true, false, false, false⟩
      = (.ok (), ⟨[97, 97], true, false, false, false⟩) := by
  have h := emitting_key_blocks_non_string_paths ⟨[], true, false, false, false⟩ rfl
  exact ⟨h.2.2.1 7, by
    simpa using
      h.2.2.2.2.2.2.2.2.2.2.2.2.2.2.2.2.2.2.2.2.2.2.2.2.2 [97]⟩

/-- C8: variant decode dispatch.  Peeking major type 3 decodes a unit variant
named by the string; peeking major type 5 reads the declared pair count — a
count other than 1 is the structural error `"Too many fields in variant map"`
(offset attached), a count of exactly 1 decodes the case-name string and
leaves decoding of the fields to the same decoder state; any other major type
is the structural error `"Expected variant map"`. -/
theorem visit_enum_dispatch :
    (∀ r first r', peek_marker r = .ok (first, r') → first >>> 5 = 3 →
      visit_enum r = (bind decString fun name => pure (.strVariant name)) r')
    ∧ (∀ r first r' len r'', peek_marker r = .ok (first, r') → first >>> 5 = 5 →
      read_len first ⟨none, r'.input, r'.bytesRead, r'.lastOffset⟩ = .ok (len, r'') →
      (len ≠ 1 →
        visit_enum r = .fail (.AtOffset (.Other "Too many fields in variant map") r''.lastOffset))
      ∧ (len = 1 →
        visit_enum r = (bind decString fun name => pure (.mapVariant name)) r''))
    ∧ (∀ r first r', peek_marker r = .ok (first, r') → first >>> 5 ≠ 3 → first >>> 5 ≠ 5 →
      visit_enum r = .fail (.AtOffset (.Other "Expected variant map") r'.lastOffset)) := by
  refine ⟨?_, ?_, ?_⟩
  · intro r first r' hpeek h3
    unfold visit_enum
    rw [DecM.bind_ok hpeek, if_pos h3]
  · intro r first r' len r'' hpeek h5 hlen
    have hv : visit_enum r =
        (bind (read_len first) fun len =>
          if len ≠ 1 then
            fun r' => .fail (.AtOffset (.Other "Too many fields in variant map") r'.lastOffset)
          else bind decString fun name => pure (.mapVariant name))
          ⟨none, r'.input, r'.bytesRead, r'.lastOffset⟩ := by
      unfold visit_enum
      rw [DecM.bind_ok hpeek, if_neg (by simp [h5]), if_pos h5]
    rw [DecM.bind_ok hlen] at hv
    constructor
    · intro hne
      rw [hv, if_pos hne]
    · intro he
      rw [hv, if_neg (by simp [he])]
  · intro r first r' hpeek h3 h5
    unfold visit_enum
    rw [DecM.bind_ok hpeek, if_neg h3, if_neg h5]

/-- C8 witness: the three dispatch outcomes at concrete inputs — the string
`"abc"` as a unit variant, a two-pair map rejected with the pair-count error,
and an integer marker rejected as not a variant. -/
theorem visit_enum_dispatch_witness :
    visit_enum ⟨none, [99, 97, 98, 99], 0, 0⟩
      = (bind decString fun name => pure (.strVariant name)) ⟨some 99, [97, 98, 99], 1, 0⟩
    ∧ visit_enum ⟨none, [162, 1, 2], 0, 0⟩
      = .fail (.AtOffset (.Other "Too many fields in variant map") 0)
    ∧ visit_enum ⟨none, [1], 0, 0⟩
      = .fail (.AtOffset (.Other "Expected variant map") 0) := by
  refine ⟨?_, ?_, ?_⟩
  · exact visit_enum_dispatch.1 ⟨none, [99, 97, 98, 99], 0, 0⟩ 99
      ⟨some 99, [97, 98, 99], 1, 0⟩ rfl (by decide)
  · exact (visit_enum_dispatch.2.1 ⟨none, [162, 1, 2], 0, 0⟩ 162 ⟨some 162, [1, 2], 1, 0⟩ 2
      ⟨none, [1, 2], 1, 0⟩ rfl (by decide) rfl).1 (by decide)
  · exact visit_enum_dispatch.2.2 ⟨none, [1], 0, 0⟩ 1 ⟨some 1, [], 1, 0⟩ rfl
      (by decide) (by decide)

/-- C9: every error the generic decode returns is either a decode error
wrapped with its stream offset (`AtOffset`) or an I/O error (which per the
error taxonomy carries no offset of its own).  The offset-less
`CborError::Decode` shape built by `miss` / `err` is unreachable from the
decode dispatch: `read_type` is only called on a marker already known to have
major type 3. -/
theorem decode_errors_carry_offset (fuel : Nat) (r : DState) (e : CborError)
    (h : decodeItem fuel r = .fail e) :
    (∃ kind off, e = .AtOffset kind off) ∨ (∃ msg, e = .ioError msg) :=
  good_decodeItem fuel r e h

/-- C9 witness: decoding `[0xFC]` (major 7, additional info 28) fails with
`Unassigned` at offset 0 — an offset-carrying error, as the theorem
guarantees. -/
theorem decode_errors_carry_offset_witness :
    (∃ kind off, (CborError.AtOffset (.Unassigned 7 28) 0) = .AtOffset kind off)
    ∨ (∃ msg, (CborError.AtOffset (.Unassigned 7 28) 0) = .ioError msg) :=
  decode_errors_carry_offset 5 ⟨none, [252], 0, 0⟩ (.AtOffset (.Unassigned 7 28) 0) rfl

/-- C10: the decoder does not enforce string map keys.  The well-formed input
`[0xA1, 0x01, 0x02]` — a one-pair map whose key is the integer 1 (major type
0) — decodes successfully to the pair `(1, 2)`: `MapVisitor::visit_key`
deserializes the key with no check of its major type. -/
theorem decoder_accepts_integer_map_keys :
    decodeItem 3 ⟨none, [161, 1, 2], 0, 0⟩
      = .ok (.map [(.unum 1, .unum 2)], ⟨none, [], 3, 2⟩) := rfl

end RustCbor
